import Mathlib

/-!
Shallow embedding of the GPIO edge-triggered interrupt subsystem of
SpaceLeap/go-embedded (src/gpio/gpio.go, the variant with the cached
`edge` field, lines 522-757).

The kernel / sysfs side is modelled as a deterministic oracle `World`
carrying scripted syscall outcomes together with an effect log, so every
gpio operation becomes a pure function `GPIO -> World -> GPIO x World x
Outcome`.  The background goroutine of StartEdgeDetectCallbacks is
modelled as a fuel-bounded loop collecting delivered values.
-/

namespace GoEmbedded

/-- Edge modes: the `Edge` string constants of gpio.go. -/
inductive Edge where
  | none
  | rising
  | falling
  | both
deriving DecidableEq, Repr

/-- Pin directions: the `Direction` string constants of gpio.go. -/
inductive Direction where
  | input
  | output
deriving DecidableEq, Repr

/-- The mutable fields of the Go `GPIO` struct: the pin number `nr`, the
cached value file handle `valueFile` (an fd once opened), the registration
slot `epollFd` (a `quick.SyncInt`, where 0 means no live registration) and
the cached edge mode `edge`. -/
structure GPIO where
  nr : Nat
  valueFile : Option Nat
  epollFd : Nat
  edge : Edge
deriving DecidableEq, Repr

/-- The kernel / sysfs environment the gpio code talks to: a deterministic
oracle plus an effect log.  Each `...Script : List Bool` lists the
outcomes of the successive corresponding syscalls (an exhausted script
means success).  `script` lists the readiness notifications the epoll wait
delivers: `some d` is a notification after which the value attribute holds
the digit `d`, an entry `Option.none` makes the wait call itself fail, and
an exhausted list leaves the wait blocked forever.  `current` is the digit
presently readable at offset 0 of the value attribute. -/
structure World where
  script : List (Option Nat)
  current : Nat
  edgeScript : List Bool
  openScript : List Bool
  exportScript : List Bool
  directionScript : List Bool
  unexportScript : List Bool
  epollCreateScript : List Bool
  epollCtlScript : List Bool
  edgeWrites : List Edge
  exportWrites : Nat
  directionWrites : Nat
  unexportWrites : Nat
  opens : Nat
  epollCreates : Nat
  closedFds : List Nat
  nextFd : Nat
deriving DecidableEq, Repr

/-- Result of a gpio call against the environment: a returned value, a Go
error returned to the caller, or a call that never returns because the
readiness wait has no notification left. -/
inductive Outcome (α : Type) where
  | ok (a : α)
  | err
  | blocked
deriving DecidableEq, Repr

/-- Pop the next scripted syscall outcome; an exhausted script succeeds. -/
def takeResult : List Bool → Bool × List Bool
  | [] => (true, [])
  | b :: rest => (b, rest)

/-- gpio.go ensureValueFileIsOpen: reuse the cached handle when there is
one, otherwise open the value attribute read-write (os.O_RDWR, with
O_NONBLOCK) and cache the handle only on success. -/
def ensureValueFileIsOpen (g : GPIO) (w : World) : GPIO × World × Outcome Unit :=
  match g.valueFile with
  | some _ => (g, w, .ok ())
  | Option.none =>
    let (ok, s) := takeResult w.openScript
    let w := { w with openScript := s, opens := w.opens + 1 }
    if ok then
      let fd := w.nextFd + 1
      ({ g with valueFile := some fd }, { w with nextFd := fd }, .ok ())
    else
      (g, w, .err)

/-- gpio.go Value: ensure the handle is open, then ReadAt offset 0 decodes
the single ASCII digit currently held by the attribute. -/
def Value (g : GPIO) (w : World) : GPIO × World × Outcome Nat :=
  match ensureValueFileIsOpen g w with
  | (g, w, .ok _) => (g, w, .ok w.current)
  | (g, w, .err) => (g, w, .err)
  | (g, w, .blocked) => (g, w, .blocked)

/-- gpio.go setEdge: skip the write when the requested mode equals the
cached mode; otherwise write the edge attribute and update the cached mode
only when the write succeeds. -/
def setEdge (g : GPIO) (w : World) (edge : Edge) : GPIO × World × Outcome Unit :=
  if edge = g.edge then
    (g, w, .ok ())
  else
    let (ok, s) := takeResult w.edgeScript
    let w := { w with edgeScript := s, edgeWrites := w.edgeWrites ++ [edge] }
    if ok then ({ g with edge := edge }, w, .ok ())
    else (g, w, .err)

/-- One syscall.EpollWait call with no timeout: consume the next scripted
readiness notification, updating the attribute digit; a scripted failure
entry makes the call return an error; an empty script blocks forever. -/
def epollWait (w : World) : World × Outcome Unit :=
  match w.script with
  | [] => (w, .blocked)
  | some d :: rest => ({ w with script := rest, current := d }, .ok ())
  | Option.none :: rest => ({ w with script := rest }, .err)

/-- The arming branch of gpio.go WaitForEdge (taken when epollFd is 0):
EpollCreate, EpollCtl-add of the value fd (closing the new epoll fd on
failure), then one EpollWait whose notification is discarded ("first time
triggers with current state, so ignore"); the fresh epoll fd is published
to the registration slot only after that discard. -/
def armEpoll (g : GPIO) (w : World) : GPIO × World × Outcome Nat :=
  let (ok, s) := takeResult w.epollCreateScript
  let w := { w with epollCreateScript := s, epollCreates := w.epollCreates + 1 }
  if ok then
    let fd := w.nextFd + 1
    let w := { w with nextFd := fd }
    let (okc, sc) := takeResult w.epollCtlScript
    let w := { w with epollCtlScript := sc }
    if okc then
      match epollWait w with
      | (w, .blocked) => (g, w, .blocked)
      | (w, .err) => (g, { w with closedFds := w.closedFds ++ [fd] }, .err)
      | (w, .ok _) => ({ g with epollFd := fd }, w, .ok fd)
    else
      (g, { w with closedFds := w.closedFds ++ [fd] }, .err)
  else
    (g, w, .err)

/-- gpio.go WaitForEdge: set the edge mode, ensure the value handle is
open, arm a fresh epoll registration when the slot is empty (discarding
the quirk notification), then block for one readiness notification and
read the current value. -/
def WaitForEdge (g : GPIO) (w : World) (edge : Edge) : GPIO × World × Outcome Nat :=
  match setEdge g w edge with
  | (g, w, .err) => (g, w, .err)
  | (g, w, .blocked) => (g, w, .blocked)
  | (g, w, .ok _) =>
    match ensureValueFileIsOpen g w with
    | (g, w, .err) => (g, w, .err)
    | (g, w, .blocked) => (g, w, .blocked)
    | (g, w, .ok _) =>
      match (if g.epollFd = 0 then armEpoll g w else (g, w, .ok g.epollFd)) with
      | (g, w, .err) => (g, w, .err)
      | (g, w, .blocked) => (g, w, .blocked)
      | (g, w, .ok _) =>
        match epollWait w with
        | (w, .blocked) => (g, w, .blocked)
        | (w, .err) => (g, w, .err)
        | (w, .ok _) => Value g w

/-- gpio.go IsEdgeDetectionEnabled: the registration slot holds a non-zero
fd. -/
def IsEdgeDetectionEnabled (g : GPIO) : Bool :=
  g.epollFd != 0

/-- gpio.go DisableEdgeDetection: atomically swap the registration slot to
0; only a caller that obtained a non-zero fd from the swap deregisters and
closes it; then reset the edge mode through setEdge, ignoring its result. -/
def DisableEdgeDetection (g : GPIO) (w : World) : GPIO × World :=
  let fd := g.epollFd
  let g := { g with epollFd := 0 }
  let w := if fd = 0 then w else { w with closedFds := w.closedFds ++ [fd] }
  match setEdge g w .none with
  | (g, w, _) => (g, w)

/-- gpio.go Close: disable edge detection, close the cached value handle
when open (the field is not cleared), then write the pin number to the
unexport control file and return that write's result. -/
def Close (g : GPIO) (w : World) : GPIO × World × Outcome Unit :=
  let (g, w) := DisableEdgeDetection g w
  let w :=
    match g.valueFile with
    | some fd => { w with closedFds := w.closedFds ++ [fd] }
    | Option.none => w
  let (ok, s) := takeResult w.unexportScript
  let w := { w with unexportScript := s, unexportWrites := w.unexportWrites + 1 }
  if ok then (g, w, .ok ()) else (g, w, .err)

/-- gpio.go NewGPIO: write the pin number to the export control file, then
set the initial direction; on either failure no handle is returned and no
compensating unexport write is made. -/
def NewGPIO (nr : Nat) (_dir : Direction) (w : World) : World × Option GPIO :=
  let (ok, s) := takeResult w.exportScript
  let w := { w with exportScript := s, exportWrites := w.exportWrites + 1 }
  if ok then
    let (okd, sd) := takeResult w.directionScript
    let w := { w with directionScript := sd, directionWrites := w.directionWrites + 1 }
    if okd then
      (w, some { nr := nr, valueFile := Option.none, epollFd := 0, edge := .none })
    else
      (w, Option.none)
  else
    (w, Option.none)

/-- How a modelled dispatch loop run ended: the goroutine returned after a
WaitForEdge error (silently), it is parked inside a blocked readiness
wait, or the modelling fuel ran out with the loop still live. -/
inductive LoopEnd where
  | exited
  | parked
  | live
deriving DecidableEq, Repr

/-- The goroutine body of gpio.go StartEdgeDetectCallbacks: repeatedly call
WaitForEdge with the requested mode; on error return silently, otherwise
invoke the callback.  Delivered values are collected in order; the fuel
bounds how many iterations are modelled. -/
def dispatchLoop (fuel : Nat) (g : GPIO) (w : World) (edge : Edge) :
    List Nat × GPIO × World × LoopEnd :=
  match fuel with
  | 0 => ([], g, w, .live)
  | Nat.succ fuel =>
    match WaitForEdge g w edge with
    | (g, w, .err) => ([], g, w, .exited)
    | (g, w, .blocked) => ([], g, w, .parked)
    | (g, w, .ok v) =>
      match dispatchLoop fuel g w edge with
      | (vs, g, w, e) => (v :: vs, g, w, e)

/-- A world in which every syscall succeeds, with a given readiness script
and initial attribute digit, and an empty effect log. -/
def mkWorld (script : List (Option Nat)) (current : Nat) : World :=
  { script := script, current := current,
    edgeScript := [], openScript := [], exportScript := [],
    directionScript := [], unexportScript := [],
    epollCreateScript := [], epollCtlScript := [],
    edgeWrites := [], exportWrites := 0, directionWrites := 0,
    unexportWrites := 0, opens := 0, epollCreates := 0,
    closedFds := [], nextFd := 0 }

/-- A freshly exported pin: no cached value handle, empty registration
slot, edge mode none. -/
def freshPin (nr : Nat) : GPIO :=
  { nr := nr, valueFile := Option.none, epollFd := 0, edge := .none }

/-- Cancellation-race scenario, step 1: a fresh pin becomes watching
through one rising WaitForEdge (quirk 0 discarded, edge to 1 returned),
with two further notifications still scripted. -/
def cancelScenarioStart : GPIO × World × Outcome Nat :=
  WaitForEdge (freshPin 18) (mkWorld [some 0, some 1, some 0, some 1] 0) .rising

/-- Cancellation-race scenario, step 2: DisableEdgeDetection completes in
between two iterations of the dispatch loop. -/
def cancelScenarioCancelled : GPIO × World :=
  DisableEdgeDetection cancelScenarioStart.1 cancelScenarioStart.2.1

/-- Cancellation-race scenario, step 3: the dispatch loop runs its next
two iterations after the cancellation. -/
def cancelScenarioLoop : List Nat × GPIO × World × LoopEnd :=
  dispatchLoop 2 cancelScenarioCancelled.1 cancelScenarioCancelled.2 .rising

/-- A setEdge call never touches the cached value handle. -/
theorem setEdge_keeps_valueFile (g : GPIO) (w : World) (e : Edge) :
    (setEdge g w e).1.valueFile = g.valueFile := by
  unfold setEdge
  split
  · rfl
  · dsimp only
    split
    · rfl
    · rfl

/-- A setEdge call never touches the unexport effect log or its script. -/
theorem setEdge_keeps_unexport (g : GPIO) (w : World) (e : Edge) :
    (setEdge g w e).2.1.unexportWrites = w.unexportWrites ∧
    (setEdge g w e).2.1.unexportScript = w.unexportScript := by
  unfold setEdge
  split
  · exact ⟨rfl, rfl⟩
  · dsimp only
    split
    · exact ⟨rfl, rfl⟩
    · exact ⟨rfl, rfl⟩

/-- DisableEdgeDetection preserves the cached value handle and the
unexport effect log and script. -/
theorem disable_keeps_unexport (g : GPIO) (w : World) :
    (DisableEdgeDetection g w).1.valueFile = g.valueFile ∧
    (DisableEdgeDetection g w).2.unexportWrites = w.unexportWrites ∧
    (DisableEdgeDetection g w).2.unexportScript = w.unexportScript := by
  unfold DisableEdgeDetection
  dsimp only
  rcases hse : setEdge { g with epollFd := 0 }
      (if g.epollFd = 0 then w else { w with closedFds := w.closedFds ++ [g.epollFd] })
      Edge.none with ⟨g1, w1, o⟩
  have h1 := setEdge_keeps_valueFile { g with epollFd := 0 }
      (if g.epollFd = 0 then w else { w with closedFds := w.closedFds ++ [g.epollFd] })
      Edge.none
  have h2 := setEdge_keeps_unexport { g with epollFd := 0 }
      (if g.epollFd = 0 then w else { w with closedFds := w.closedFds ++ [g.epollFd] })
      Edge.none
  rw [hse] at h1 h2
  have hu : (if g.epollFd = 0 then w
      else { w with closedFds := w.closedFds ++ [g.epollFd] }).unexportWrites
      = w.unexportWrites := by split <;> rfl
  have hs : (if g.epollFd = 0 then w
      else { w with closedFds := w.closedFds ++ [g.epollFd] }).unexportScript
      = w.unexportScript := by split <;> rfl
  exact ⟨h1, h2.1.trans hu, h2.2.trans hs⟩

/-- Every Close call increments the unexport write count by exactly one
and leaves the valueFile field as it was (the handle is never cleared). -/
theorem close_unexport_once (g : GPIO) (w : World) :
    (Close g w).2.1.unexportWrites = w.unexportWrites + 1 ∧
    (Close g w).1.valueFile = g.valueFile := by
  unfold Close
  dsimp only
  have hk := disable_keeps_unexport g w
  rcases hD : DisableEdgeDetection g w with ⟨g1, w1⟩
  rw [hD] at hk
  dsimp only
  rcases hv : g1.valueFile with _ | fd <;>
    dsimp only <;>
    rcases ht : takeResult w1.unexportScript with ⟨ok, s⟩ <;>
    dsimp only <;>
    cases ok <;>
    simp_all

/-- C1: on a fresh arm (empty registration slot) WaitForEdge consumes and
discards exactly one readiness notification, the quirk notification
carrying the pin's already-current value, before blocking for a genuine
edge: for a pin at value 0 armed rising, with the quirk notification
(value 0) then a genuine transition to 1 scripted, it returns value 1
(not 0) having consumed both notifications; and with only the quirk
notification scripted it stays blocked instead of returning a phantom 0. -/
theorem waitForEdge_discards_quirk :
    (WaitForEdge (freshPin 18) (mkWorld [some 0, some 1] 0) .rising).2.2 = .ok 1 ∧
    (WaitForEdge (freshPin 18) (mkWorld [some 0, some 1] 0) .rising).2.1.script = [] ∧
    (WaitForEdge (freshPin 18) (mkWorld [some 0] 0) .rising).2.2 = .blocked := by
  decide

/-- C2: the dispatch loop does not stop once its registration is
deactivated.  A pin is watching after one WaitForEdge; DisableEdgeDetection
then completes between loop iterations (slot swapped to 0, fd closed, edge
reset); the next iteration of the StartEdgeDetectCallbacks loop finds the
slot empty and, instead of exiting as the source comment "An error or
DisableEdgeDetection stops the thread" requires, re-arms a fresh epoll
registration (a second EpollCreate), delivers a further value and parks in
a new blocked wait, leaving edge detection enabled again. -/
theorem dispatchLoop_rearms_after_cancel :
    cancelScenarioStart.2.2 = .ok 1 ∧
    IsEdgeDetectionEnabled cancelScenarioCancelled.1 = false ∧
    cancelScenarioLoop.1 = [1] ∧
    cancelScenarioLoop.2.2.2 = .parked ∧
    cancelScenarioLoop.2.2.1.epollCreates = 2 ∧
    IsEdgeDetectionEnabled cancelScenarioLoop.2.1 = true := by
  decide

/-- C3: after DisableEdgeDetection returns, IsEdgeDetectionEnabled is
false, the registration fd has been closed exactly once, the edge mode is
reset to none (given the edge attribute write is accepted), and a second
competing teardown closes nothing further: the atomic swap hands the fd to
exactly one closer. -/
theorem cancel_detaches (g : GPIO) (w : World)
    (hfd : g.epollFd ≠ 0) (hok : (takeResult w.edgeScript).1 = true) :
    IsEdgeDetectionEnabled (DisableEdgeDetection g w).1 = false ∧
    (DisableEdgeDetection g w).2.closedFds = w.closedFds ++ [g.epollFd] ∧
    (DisableEdgeDetection g w).1.edge = .none ∧
    (DisableEdgeDetection (DisableEdgeDetection g w).1 (DisableEdgeDetection g w).2).2.closedFds
      = (DisableEdgeDetection g w).2.closedFds := by
  obtain ⟨nr, vf, efd, ed⟩ := g
  obtain ⟨s, cur, eS, oS, xS, dS, uS, ecS, ectS, eW, xW, dW, uW, op, epC, cF, nF⟩ := w
  simp only at hfd
  rcases eS with _ | ⟨b, rest⟩ <;>
    simp only [takeResult] at hok <;>
    cases ed <;>
    simp_all [DisableEdgeDetection, setEdge, takeResult, IsEdgeDetectionEnabled]

theorem cancel_detaches_witness :
    (⟨18, some 1, 5, Edge.rising⟩ : GPIO).epollFd ≠ 0 ∧
    (takeResult (mkWorld [] 0).edgeScript).1 = true ∧
    (IsEdgeDetectionEnabled
        (DisableEdgeDetection ⟨18, some 1, 5, Edge.rising⟩ (mkWorld [] 0)).1 = false ∧
      (DisableEdgeDetection ⟨18, some 1, 5, Edge.rising⟩ (mkWorld [] 0)).2.closedFds
        = (mkWorld [] 0).closedFds ++ [(⟨18, some 1, 5, Edge.rising⟩ : GPIO).epollFd] ∧
      (DisableEdgeDetection ⟨18, some 1, 5, Edge.rising⟩ (mkWorld [] 0)).1.edge = .none ∧
      (DisableEdgeDetection
          (DisableEdgeDetection ⟨18, some 1, 5, Edge.rising⟩ (mkWorld [] 0)).1
          (DisableEdgeDetection ⟨18, some 1, 5, Edge.rising⟩ (mkWorld [] 0)).2).2.closedFds
        = (DisableEdgeDetection ⟨18, some 1, 5, Edge.rising⟩ (mkWorld [] 0)).2.closedFds) :=
  ⟨by decide, by decide,
    cancel_detaches ⟨18, some 1, 5, Edge.rising⟩ (mkWorld [] 0) (by decide) (by decide)⟩

/-- C4 counterexample: repeated Close is not an idempotent no-op.  A pin
whose value handle is open is closed twice; the code issues a second
unexport write on the second call (there is no guard), and in a world
whose kernel accepts the first unexport write and rejects the second (the
pin is no longer exported), the second Close returns an error. -/
theorem close_repeat_fails :
    let w0 := { mkWorld [] 0 with unexportScript := [true, false] }
    let r1 := Close { freshPin 18 with valueFile := some 1 } w0
    let r2 := Close r1.1 r1.2.1
    r1.2.2 = .ok () ∧ r2.2.2 = .err ∧ r2.2.1.unexportWrites = 2 ∧
    r2.2.1.closedFds = [1, 1] := by
  decide

/-- C4 amended: every Close call, including a repeated one, issues exactly
one unexport write whose result it returns, and never clears the cached
value handle field, so closing twice performs two unexport writes (and
re-closes the same handle). -/
theorem close_unexport_every_call (g : GPIO) (w : World) :
    (Close g w).2.1.unexportWrites = w.unexportWrites + 1 ∧
    (Close g w).1.valueFile = g.valueFile ∧
    (Close (Close g w).1 (Close g w).2.1).2.1.unexportWrites = w.unexportWrites + 2 := by
  refine ⟨(close_unexport_once g w).1, (close_unexport_once g w).2, ?_⟩
  rw [(close_unexport_once (Close g w).1 (Close g w).2.1).1, (close_unexport_once g w).1]

/-- C5: requesting the currently configured edge mode again is an
idempotent no-op.  When the mode differs from the cached one and the
attribute write is accepted, the first setEdge performs exactly one edge
attribute write; the second call with the same mode changes nothing at all
and returns success. -/
theorem setEdge_write_skipped (g : GPIO) (w : World) (e : Edge)
    (hne : e ≠ g.edge) (hok : (takeResult w.edgeScript).1 = true) :
    (setEdge g w e).2.2 = .ok () ∧
    (setEdge g w e).2.1.edgeWrites = w.edgeWrites ++ [e] ∧
    setEdge (setEdge g w e).1 (setEdge g w e).2.1 e
      = ((setEdge g w e).1, (setEdge g w e).2.1, .ok ()) := by
  obtain ⟨nr, vf, efd, ed⟩ := g
  obtain ⟨s, cur, eS, oS, xS, dS, uS, ecS, ectS, eW, xW, dW, uW, op, epC, cF, nF⟩ := w
  simp only at hne
  rcases eS with _ | ⟨b, rest⟩ <;>
    simp only [takeResult] at hok <;>
    simp_all [setEdge, takeResult]

theorem setEdge_write_skipped_witness :
    Edge.rising ≠ (freshPin 18).edge ∧
    (takeResult (mkWorld [] 0).edgeScript).1 = true ∧
    ((setEdge (freshPin 18) (mkWorld [] 0) .rising).2.2 = .ok () ∧
      (setEdge (freshPin 18) (mkWorld [] 0) .rising).2.1.edgeWrites
        = (mkWorld [] 0).edgeWrites ++ [Edge.rising] ∧
      setEdge (setEdge (freshPin 18) (mkWorld [] 0) .rising).1
          (setEdge (freshPin 18) (mkWorld [] 0) .rising).2.1 .rising
        = ((setEdge (freshPin 18) (mkWorld [] 0) .rising).1,
           (setEdge (freshPin 18) (mkWorld [] 0) .rising).2.1, .ok ())) :=
  ⟨by decide, by decide,
    setEdge_write_skipped (freshPin 18) (mkWorld [] 0) .rising (by decide) (by decide)⟩

/-- C6: WaitForEdge is idempotent with respect to arming.  With a live
registration (non-zero slot), an open value handle and an unchanged mode,
it creates no new registration and discards nothing: the pin state is
returned unchanged and the world changes only by consuming the single next
genuine notification, whose value is returned; and whenever a changed mode
makes the edge attribute write happen and that write is rejected,
WaitForEdge fails. -/
theorem waitForEdge_idempotent_arming
    (g : GPIO) (w : World) (mode : Edge) (v vf : Nat) (rest : List (Option Nat))
    (g2 : GPIO) (w2 : World) (m2 : Edge)
    (hfd : g.epollFd ≠ 0) (hvf : g.valueFile = some vf)
    (hmode : g.edge = mode) (hs : w.script = some v :: rest)
    (hne : m2 ≠ g2.edge) (hfail : (takeResult w2.edgeScript).1 = false) :
    WaitForEdge g w mode = (g, { w with script := rest, current := v }, .ok v) ∧
    (WaitForEdge g2 w2 m2).2.2 = .err := by
  constructor
  · obtain ⟨nr, vfO, efd, ed⟩ := g
    obtain ⟨s, cur, eS, oS, xS, dS, uS, ecS, ectS, eW, xW, dW, uW, op, epC, cF, nF⟩ := w
    simp only at hfd hvf hmode hs
    subst hvf hmode hs
    simp [WaitForEdge, setEdge, ensureValueFileIsOpen, epollWait, Value, hfd]
  · obtain ⟨nr, vfO, efd, ed⟩ := g2
    obtain ⟨s, cur, eS, oS, xS, dS, uS, ecS, ectS, eW, xW, dW, uW, op, epC, cF, nF⟩ := w2
    simp only at hne
    rcases eS with _ | ⟨b, rest2⟩ <;>
      simp only [takeResult] at hfail <;>
      simp_all [WaitForEdge, setEdge, takeResult]

theorem waitForEdge_idempotent_arming_witness :
    (⟨18, some 1, 2, Edge.rising⟩ : GPIO).epollFd ≠ 0 ∧
    (WaitForEdge ⟨18, some 1, 2, Edge.rising⟩ (mkWorld [some 1] 0) .rising
      = (⟨18, some 1, 2, Edge.rising⟩,
         { mkWorld [some 1] 0 with script := [], current := 1 }, .ok 1) ∧
    (WaitForEdge (freshPin 7) { mkWorld [] 0 with edgeScript := [false] } .rising).2.2
      = .err) :=
  ⟨by decide,
    waitForEdge_idempotent_arming ⟨18, some 1, 2, Edge.rising⟩ (mkWorld [some 1] 0)
      .rising 1 1 [] (freshPin 7) { mkWorld [] 0 with edgeScript := [false] } .rising
      (by decide) (by decide) (by decide) (by decide) (by decide) (by decide)⟩

/-- C7: the value attribute handle is opened (read-write) on the first
value access, cached, and reused for every later access: a first read with
no cached handle opens exactly one handle, caches its fd and returns the
digit at offset 0; any read with a cached handle changes neither the pin
state nor the world (it opens nothing, consuming no open result) and again
returns the digit at offset 0. -/
theorem value_handle_cached
    (g : GPIO) (w : World) (g2 : GPIO) (w2 : World) (fd : Nat)
    (hvf : g.valueFile = Option.none) (hok : (takeResult w.openScript).1 = true)
    (h2 : g2.valueFile = some fd) :
    (Value g w).1.valueFile = some (w.nextFd + 1) ∧
    (Value g w).2.1.opens = w.opens + 1 ∧
    (Value g w).2.2 = .ok w.current ∧
    Value g2 w2 = (g2, w2, .ok w2.current) := by
  refine ⟨?_, ?_, ?_, ?_⟩ <;>
    [skip; skip; skip;
     (obtain ⟨nr, vfO, efd, ed⟩ := g2;
      simp only at h2; subst h2;
      simp [Value, ensureValueFileIsOpen])] <;>
    (obtain ⟨nr, vfO, efd, ed⟩ := g;
     obtain ⟨s, cur, eS, oS, xS, dS, uS, ecS, ectS, eW, xW, dW, uW, op, epC, cF, nF⟩ := w;
     simp only at hvf; subst hvf;
     rcases oS with _ | ⟨b, rest⟩ <;>
       simp only [takeResult] at hok <;>
       simp_all [Value, ensureValueFileIsOpen, takeResult])

theorem value_handle_cached_witness :
    (freshPin 18).valueFile = Option.none ∧
    ((Value (freshPin 18) (mkWorld [] 7)).1.valueFile = some ((mkWorld [] 7).nextFd + 1) ∧
      (Value (freshPin 18) (mkWorld [] 7)).2.1.opens = (mkWorld [] 7).opens + 1 ∧
      (Value (freshPin 18) (mkWorld [] 7)).2.2 = .ok (mkWorld [] 7).current ∧
      Value ⟨18, some 3, 0, Edge.none⟩ (mkWorld [] 1)
        = (⟨18, some 3, 0, Edge.none⟩, mkWorld [] 1, .ok (mkWorld [] 1).current)) :=
  ⟨by decide,
    value_handle_cached (freshPin 18) (mkWorld [] 7) ⟨18, some 3, 0, Edge.none⟩
      (mkWorld [] 1) 3 (by decide) (by decide) (by decide)⟩

/-- C8: a terminal failure inside the dispatch loop ends it silently.
Whenever the wait-and-read cycle returns an error, the next loop iteration
delivers nothing, performs no retry and exits (the loop's result type has
no error component: nothing is surfaced); concretely, with a failure
scripted after two genuine edges, the loop delivers exactly the two values
before the failure, exits, and never consumes the notification scripted
after the failure. -/
theorem dispatchLoop_silent_on_error (fuel : Nat) (g : GPIO) (w : World) (e : Edge)
    (herr : (WaitForEdge g w e).2.2 = .err) :
    dispatchLoop (fuel + 1) g w e
      = ([], (WaitForEdge g w e).1, (WaitForEdge g w e).2.1, .exited) ∧
    ((dispatchLoop 10 (freshPin 18)
        (mkWorld [some 0, some 1, some 0, Option.none, some 1] 0) .rising).1 = [1, 0] ∧
      (dispatchLoop 10 (freshPin 18)
        (mkWorld [some 0, some 1, some 0, Option.none, some 1] 0) .rising).2.2.2 = .exited ∧
      (dispatchLoop 10 (freshPin 18)
        (mkWorld [some 0, some 1, some 0, Option.none, some 1] 0) .rising).2.2.1.script
        = [some 1]) := by
  constructor
  · rcases hW : WaitForEdge g w e with ⟨g1, w1, o⟩
    rw [hW] at herr
    cases o with
    | ok v => simp at herr
    | blocked => simp at herr
    | err => simp [dispatchLoop, hW]
  · refine ⟨by decide, by decide, by decide⟩

theorem dispatchLoop_silent_on_error_witness :
    (WaitForEdge (freshPin 18) { mkWorld [] 0 with edgeScript := [false] } .rising).2.2
      = .err ∧
    dispatchLoop 1 (freshPin 18) { mkWorld [] 0 with edgeScript := [false] } .rising
      = ([],
         (WaitForEdge (freshPin 18) { mkWorld [] 0 with edgeScript := [false] } .rising).1,
         (WaitForEdge (freshPin 18) { mkWorld [] 0 with edgeScript := [false] } .rising).2.1,
         .exited) :=
  ⟨by decide,
    (dispatchLoop_silent_on_error 0 (freshPin 18)
      { mkWorld [] 0 with edgeScript := [false] } .rising (by decide)).1⟩

/-- C9: NewGPIO is not atomic on error.  When the export write is accepted
but the initial direction write is rejected, the constructor returns no
handle; the export write has happened (the pin stays exported) and no
compensating unexport write is issued. -/
theorem newGPIO_not_atomic (nr : Nat) (d : Direction) (w : World)
    (hexp : (takeResult w.exportScript).1 = true)
    (hdir : (takeResult w.directionScript).1 = false) :
    ( NewGPIO nr d w).2 = Option.none ∧
    ( NewGPIO nr d w).1.exportWrites = w.exportWrites + 1 ∧
    ( NewGPIO nr d w).1.directionWrites = w.directionWrites + 1 ∧
    ( NewGPIO nr d w).1.unexportWrites = w.unexportWrites := by
  obtain ⟨s, cur, eS, oS, xS, dS, uS, ecS, ectS, eW, xW, dW, uW, op, epC, cF, nF⟩ := w
  rcases xS with _ | ⟨b, rest⟩ <;> rcases dS with _ | ⟨b2, rest2⟩ <;>
    simp only [takeResult] at hexp hdir <;>
    simp_all [ NewGPIO, takeResult]

theorem newGPIO_not_atomic_witness :
    (takeResult ({ mkWorld [] 0 with directionScript := [false] } : World).exportScript).1
      = true ∧
    (takeResult ({ mkWorld [] 0 with directionScript := [false] } : World).directionScript).1
      = false ∧
    (( NewGPIO 18 .input { mkWorld [] 0 with directionScript := [false] }).2 = Option.none ∧
      ( NewGPIO 18 .input { mkWorld [] 0 with directionScript := [false] }).1.exportWrites
        = ({ mkWorld [] 0 with directionScript := [false] } : World).exportWrites + 1 ∧
      ( NewGPIO 18 .input { mkWorld [] 0 with directionScript := [false] }).1.directionWrites
        = ({ mkWorld [] 0 with directionScript := [false] } : World).directionWrites + 1 ∧
      ( NewGPIO 18 .input { mkWorld [] 0 with directionScript := [false] }).1.unexportWrites
        = ({ mkWorld [] 0 with directionScript := [false] } : World).unexportWrites) :=
  ⟨by decide, by decide,
    newGPIO_not_atomic 18 .input { mkWorld [] 0 with directionScript := [false] }
      (by decide) (by decide)⟩

/-- C10: the cached edge mode follows successful writes only.  For a mode
differing from the cached one: when the edge attribute write is rejected
the pin state (in particular the cached mode) is unchanged, the call
fails, the write was attempted, and a retry with the same mode attempts
the write again instead of being skipped; when the write is accepted the
cached mode equals the mode just written and the call succeeds. -/
theorem setEdge_cache_follows_write (g : GPIO) (w : World) (e : Edge)
    (hne : e ≠ g.edge) :
    ((takeResult w.edgeScript).1 = false →
      (setEdge g w e).1 = g ∧ (setEdge g w e).2.2 = .err ∧
      (setEdge g w e).2.1.edgeWrites = w.edgeWrites ++ [e] ∧
      (setEdge (setEdge g w e).1 (setEdge g w e).2.1 e).2.1.edgeWrites
        = w.edgeWrites ++ [e, e]) ∧
    ((takeResult w.edgeScript).1 = true →
      (setEdge g w e).1.edge = e ∧ (setEdge g w e).2.2 = .ok ()) := by
  obtain ⟨nr, vf, efd, ed⟩ := g
  obtain ⟨s, cur, eS, oS, xS, dS, uS, ecS, ectS, eW, xW, dW, uW, op, epC, cF, nF⟩ := w
  simp only at hne
  constructor <;> intro h
  · rcases eS with _ | ⟨b, rest⟩
    · simp [takeResult] at h
    · simp only [takeResult] at h
      subst h
      rcases rest with _ | ⟨b2, rest2⟩
      · simp [setEdge, takeResult, hne]
      · cases b2 <;> simp [setEdge, takeResult, hne]
  · rcases eS with _ | ⟨b, rest⟩ <;>
      simp only [takeResult] at h <;>
      simp_all [setEdge, takeResult]

theorem setEdge_cache_follows_write_witness :
    Edge.rising ≠ (freshPin 18).edge ∧
    ((setEdge (freshPin 18) { mkWorld [] 0 with edgeScript := [false] } .rising).1
        = freshPin 18 ∧
      (setEdge (freshPin 18) { mkWorld [] 0 with edgeScript := [false] } .rising).2.2
        = .err ∧
      (setEdge (freshPin 18) { mkWorld [] 0 with edgeScript := [false] } .rising).2.1.edgeWrites
        = ({ mkWorld [] 0 with edgeScript := [false] } : World).edgeWrites ++ [Edge.rising] ∧
      (setEdge
          (setEdge (freshPin 18) { mkWorld [] 0 with edgeScript := [false] } .rising).1
          (setEdge (freshPin 18) { mkWorld [] 0 with edgeScript := [false] } .rising).2.1
          .rising).2.1.edgeWrites
        = ({ mkWorld [] 0 with edgeScript := [false] } : World).edgeWrites
            ++ [Edge.rising, Edge.rising]) :=
  ⟨by decide,
    (setEdge_cache_follows_write (freshPin 18)
      { mkWorld [] 0 with edgeScript := [false] } .rising (by decide)).1 (by decide)⟩

end GoEmbedded
